import Mathlib

/-!
Verification of the SpheroBoltPlus SDK (`src/SBP_SDK.py`).

The SDK is shallowly embedded: the packet codec (`_calculate_checksum`,
the framing done by `_send_command`) becomes pure functions on `List Nat`
(bytes), and the session (`SpheroBoltPlus` object with its `device`,
`characteristic`, `is_connected`, `is_awake` fields) becomes a `Session`
record with explicit state passing.  Every interaction with the BLE
transport (`bleak`) is an `await` that may raise; each such point is
modelled by an adversarially chosen `Bool` outcome, with the one
deterministic constraint taken from the Python semantics: an operation on
`self.device` when it is `None` raises unconditionally (AttributeError),
so no transport write can even be attempted then.
-/

/-- `SOP = 0x8D`, start-of-packet marker (module constant). -/
def SOP : Nat := 0x8D

/-- `EOP = 0xD8`, end-of-packet marker (module constant). -/
def EOP : Nat := 0xD8

/-- `SpheroBoltPlus._calculate_checksum`: sum all bytes, keep the low
8 bits (`& 0xFF`), then invert them (`^ 0xFF`). -/
def _calculate_checksum (data : List Nat) : Nat :=
  (data.sum &&& 0xFF) ^^^ 0xFF

/-- The packet built inside `_send_command`:
`bytearray([SOP]) + header + payload + bytearray([checksum, EOP])`. -/
def frame (header payload : List Nat) : List Nat :=
  [SOP] ++ header ++ payload ++ [_calculate_checksum (header ++ payload), EOP]

/-- The hardcoded wake frame sent by `wake()`:
`bytearray([0x8D, 0x38, 0x11, 0x01, 0x13, 0x0D, 0xFF, 0x96, 0xD8])`. -/
def wake_command : List Nat := [0x8D, 0x38, 0x11, 0x01, 0x13, 0x0D, 0xFF, 0x96, 0xD8]

/-- Python `max(lo, min(hi, v))`, the clamping idiom used by `drive`,
`set_main_led` and `set_matrix_led` on their integer arguments. -/
def clamp (lo hi v : Int) : Int := max lo (min hi v)

/-- Header for the drive command. -/
def drive_header : List Nat := [0x38, 0x12, 0x01, 0x16, 0x07, 0xFF]

/-- Header for the set-RGB-LED command. -/
def set_main_led_header : List Nat := [0x38, 0x11, 0x01, 0x20, 0x07, 0xFF]

/-- Header for the set-matrix-LED command. -/
def set_matrix_led_header : List Nat := [0x38, 0x11, 0x01, 0x2D, 0x09, 0xFF]

/-- Payload of `drive`: clamp `speed` to [0,255] and `heading` to
[0,359], then `struct.pack(">BHB", speed, heading, flags)` — one byte of
speed, the heading as a big-endian 16-bit value, one flag byte. -/
def drive_payload (speed heading : Int) (reverse : Bool) : List Nat :=
  let speed := clamp 0 255 speed
  let heading := clamp 0 359 heading
  let flags : Nat := if reverse then 1 else 0
  [speed.toNat, heading.toNat / 256, heading.toNat % 256, flags]

/-- Payload of `set_main_led`: clamp each channel to [0,255], then
`struct.pack(">BBB", red, green, blue)`. -/
def set_main_led_payload (red green blue : Int) : List Nat :=
  [(clamp 0 255 red).toNat, (clamp 0 255 green).toNat, (clamp 0 255 blue).toNat]

/-- Payload of `set_matrix_led`: clamp `x`,`y` to [0,7] and each channel
to [0,255], then `struct.pack(">BBBBB", x, y, red, green, blue)`. -/
def set_matrix_led_payload (x y red green blue : Int) : List Nat :=
  [(clamp 0 7 x).toNat, (clamp 0 7 y).toNat,
   (clamp 0 255 red).toNat, (clamp 0 255 green).toNat, (clamp 0 255 blue).toNat]

/-- The mutable fields of a `SpheroBoltPlus` object that the session
operations read or write.  `device` records whether a BLE client handle
is installed (`self.device` is not `None`); `characteristic` whether
`self.characteristic` holds a resolved characteristic. -/
structure Session where
  device : Bool
  characteristic : Bool
  is_connected : Bool
  is_awake : Bool
deriving DecidableEq, Repr

/-- The state of a freshly constructed `SpheroBoltPlus` (`__init__`):
no handle, no characteristic, disconnected, asleep. -/
def initSession : Session :=
  { device := false, characteristic := false, is_connected := false, is_awake := false }

/-- Transport outcomes an adversarial environment chooses during one
`connect` call: whether `device.connect`/`get_services` succeed, whether
the Sphero characteristic is found, whether the cleanup
`device.disconnect()` on the not-found path raises, and whether the wake
write succeeds. -/
structure ConnectOutcome where
  openOk : Bool
  charFound : Bool
  cleanupOk : Bool
  wakeWriteOk : Bool
deriving DecidableEq, Repr

/-- `wake()`: attempt `write_gatt_char` of the hardcoded wake frame; on
success set `is_awake = True` and return `True`, on any exception return
`False` leaving the state unchanged.  When `self.device` is `None` the
attribute access itself raises, so no write is attempted at all.
Returns (new state, result, transport writes attempted). -/
def wake (s : Session) (writeOk : Bool) : Session × Bool × List (List Nat) :=
  if s.device then
    if writeOk then ({ s with is_awake := true }, true, [wake_command])
    else (s, false, [wake_command])
  else (s, false, [])

/-- `_send_command(header, payload)`: refuse when not connected, else
build the framed packet and attempt to write it; `True` exactly when the
write succeeds. -/
def _send_command (s : Session) (header payload : List Nat) (writeOk : Bool) :
    Session × Bool × List (List Nat) :=
  if s.is_connected then
    let packet := frame header payload
    if s.device then
      if writeOk then (s, true, [packet]) else (s, false, [packet])
    else (s, false, [])
  else (s, false, [])

/-- `drive(speed, heading, reverse)`: guarded by
`is_connected and is_awake`; on pass, clamp, pack and send. -/
def drive (s : Session) (speed heading : Int) (reverse : Bool) (writeOk : Bool) :
    Session × Bool × List (List Nat) :=
  if s.is_connected && s.is_awake then
    _send_command s drive_header (drive_payload speed heading reverse) writeOk
  else (s, false, [])

/-- `set_main_led(red, green, blue)`: guarded by
`is_connected and is_awake`; on pass, clamp, pack and send. -/
def set_main_led (s : Session) (red green blue : Int) (writeOk : Bool) :
    Session × Bool × List (List Nat) :=
  if s.is_connected && s.is_awake then
    _send_command s set_main_led_header (set_main_led_payload red green blue) writeOk
  else (s, false, [])

/-- `set_matrix_led(x, y, red, green, blue)`: guarded by
`is_connected and is_awake`; on pass, clamp, pack and send. -/
def set_matrix_led (s : Session) (x y red green blue : Int) (writeOk : Bool) :
    Session × Bool × List (List Nat) :=
  if s.is_connected && s.is_awake then
    _send_command s set_matrix_led_header (set_matrix_led_payload x y red green blue) writeOk
  else (s, false, [])

/-- `connect(address)`: install a fresh client handle, open it, resolve
the characteristic, and on success set `is_connected = True` and call
`wake()` (whose boolean result is discarded).  Any exception is caught
and sets `is_connected = False`.  On the characteristic-not-found path
the code calls `device.disconnect()` and returns `False` WITHOUT touching
`is_connected`; if that cleanup call itself raises, the outer handler
sets `is_connected = False`. -/
def connect (s : Session) (_address : String) (o : ConnectOutcome) :
    Session × Bool × List (List Nat) :=
  let s := { s with device := true }
  if !o.openOk then
    ({ s with is_connected := false }, false, [])
  else if !o.charFound then
    let s := { s with characteristic := false }
    if o.cleanupOk then (s, false, [])
    else ({ s with is_connected := false }, false, [])
  else
    let s := { s with characteristic := true, is_connected := true }
    let w := wake s o.wakeWriteOk
    (w.1, true, w.2.2)

/-- `disconnect()`: `True` immediately when already disconnected;
otherwise `await device.disconnect()` — on success clear both flags and
return `True`, on exception return `False` with the state unchanged. -/
def disconnect (s : Session) (closeOk : Bool) : Session × Bool :=
  if !s.is_connected then (s, true)
  else if s.device && closeOk then
    ({ s with is_connected := false, is_awake := false }, true)
  else (s, false)

/-- One user-visible operation together with the transport outcomes the
environment chooses for it. -/
inductive Op where
  | connectOp (address : String) (o : ConnectOutcome)
  | disconnectOp (closeOk : Bool)
  | wakeOp (writeOk : Bool)
  | driveOp (speed heading : Int) (reverse : Bool) (writeOk : Bool)
  | setMainLedOp (red green blue : Int) (writeOk : Bool)
  | setMatrixLedOp (x y red green blue : Int) (writeOk : Bool)

/-- State reached after one operation. -/
def step (s : Session) : Op → Session
  | .connectOp a o => (connect s a o).1
  | .disconnectOp c => (disconnect s c).1
  | .wakeOp w => (wake s w).1
  | .driveOp sp h r w => (drive s sp h r w).1
  | .setMainLedOp r g b w => (set_main_led s r g b w).1
  | .setMatrixLedOp x y r g b w => (set_matrix_led s x y r g b w).1

/-- Run a whole sequence of operations. -/
def run (s : Session) : List Op → Session
  | [] => s
  | op :: ops => run (step s op) ops

/-! ## Helper lemmas -/

/-- `_send_command` never mutates the session fields. -/
theorem send_command_state_eq (s : Session) (h p : List Nat) (w : Bool) :
    (_send_command s h p w).1 = s := by
  unfold _send_command
  split <;> (try split) <;> (try split) <;> rfl

/-- None of the three guarded commands mutates the session fields. -/
theorem command_state_eq (s : Session) (sp hd r g b x y : Int) (rv w : Bool) :
    (drive s sp hd rv w).1 = s ∧ (set_main_led s r g b w).1 = s ∧
    (set_matrix_led s x y r g b w).1 = s := by
  unfold drive set_main_led set_matrix_led
  refine ⟨?_, ?_, ?_⟩ <;> (split <;> simp [send_command_state_eq])

/-- `clamp` is idempotent. -/
theorem clamp_idem (lo hi v : Int) : clamp lo hi (clamp lo hi v) = clamp lo hi v := by
  unfold clamp; omega

/-! ## Claims -/

/-- C1: for every byte sequence `d`, the checksum is the one's-complement
of the low byte of the byte sum — `(sum d % 256) ^^^ 0xFF` — it fits in a
byte, and recomputing it on the same input yields the identical value
(it is a pure function of `d`). -/
theorem checksum_spec (d : List Nat) :
    _calculate_checksum d = (d.sum % 256) ^^^ 0xFF ∧
    _calculate_checksum d < 256 ∧
    _calculate_checksum d = _calculate_checksum d := by
  have hm : d.sum &&& 255 = d.sum % 256 := Nat.and_pow_two_sub_one_eq_mod d.sum 8
  refine ⟨?_, ?_, rfl⟩
  · show (d.sum &&& 255) ^^^ 255 = (d.sum % 256) ^^^ 255
    rw [hm]
  · show (d.sum &&& 255) ^^^ 255 < 256
    rw [hm]
    have := @Nat.xor_lt_two_pow (d.sum % 256) 255 8 (by omega) (by omega)
    simpa using this

/-- C1 witness: the theorem instantiated at the wake header ++ payload. -/
theorem checksum_spec_witness :
    _calculate_checksum [0x38, 0x11, 0x01, 0x13, 0x0D, 0xFF]
      = (([0x38, 0x11, 0x01, 0x13, 0x0D, 0xFF] : List Nat).sum % 256) ^^^ 0xFF :=
  (checksum_spec [0x38, 0x11, 0x01, 0x13, 0x0D, 0xFF]).1

/-- C2: for all header bytes `h` and payload bytes `p`, the framed packet
is `[0x8D] ++ h ++ p ++ [checksum (h ++ p)] ++ [0xD8]`; its length is
`len h + len p + 3`, its first byte is `0x8D`, its last byte is `0xD8`,
and the checksum is computed over `h ++ p` only. -/
theorem frame_spec (h p : List Nat) :
    frame h p = [0x8D] ++ h ++ p ++ [_calculate_checksum (h ++ p)] ++ [0xD8] ∧
    (frame h p).length = h.length + p.length + 3 ∧
    (frame h p).head? = some 0x8D ∧
    (frame h p).getLast? = some 0xD8 := by
  refine ⟨by simp [frame, SOP, EOP], ?_, rfl, ?_⟩
  · simp [frame]; omega
  · have he : frame h p = ([SOP] ++ h ++ p ++ [_calculate_checksum (h ++ p)]) ++ [EOP] := by
      simp [frame]
    rw [he, List.getLast?_concat]; rfl

/-- C3: framing header `38 11 01 13` with payload `0D FF` yields checksum
byte `0x96` (the byte at index 7, i.e. index −2 of the 9-byte frame) and
reproduces exactly the hardcoded wake frame `8D 38 11 01 13 0D FF 96 D8`
that `wake()` sends. -/
theorem wake_frame_spec :
    frame [0x38, 0x11, 0x01, 0x13] [0x0D, 0xFF] = wake_command ∧
    _calculate_checksum ([0x38, 0x11, 0x01, 0x13] ++ [0x0D, 0xFF]) = 0x96 ∧
    (frame [0x38, 0x11, 0x01, 0x13] [0x0D, 0xFF])[7]? = some 0x96 ∧
    wake_command = [0x8D, 0x38, 0x11, 0x01, 0x13, 0x0D, 0xFF, 0x96, 0xD8] := by
  refine ⟨by decide, by decide, by decide, rfl⟩

/-- C4: every integer argument of the three command encoders is clamped
to the nearest bound of its range before packing (`[0,255]` for speed and
colour channels, `[0,359]` for heading, `[0,7]` for matrix coordinates):
out-of-range values are neither rejected nor wrapped, the encoded payload
equals the payload of the clamped arguments; in particular
`drive(300, 400, false)` encodes exactly like `drive(255, 359, false)`,
and `set_matrix_led` with `x = 10, y = −1` encodes `x = 7, y = 0`. -/
theorem command_clamping :
    (∀ v : Int, clamp 0 255 v = if v < 0 then 0 else if 255 < v then 255 else v) ∧
    (∀ v : Int, clamp 0 359 v = if v < 0 then 0 else if 359 < v then 359 else v) ∧
    (∀ v : Int, clamp 0 7 v = if v < 0 then 0 else if 7 < v then 7 else v) ∧
    (∀ speed heading : Int, ∀ reverse : Bool,
      drive_payload speed heading reverse
        = drive_payload (clamp 0 255 speed) (clamp 0 359 heading) reverse) ∧
    (∀ r g b : Int, set_main_led_payload r g b
        = set_main_led_payload (clamp 0 255 r) (clamp 0 255 g) (clamp 0 255 b)) ∧
    (∀ x y r g b : Int, set_matrix_led_payload x y r g b
        = set_matrix_led_payload (clamp 0 7 x) (clamp 0 7 y)
            (clamp 0 255 r) (clamp 0 255 g) (clamp 0 255 b)) ∧
    drive_payload 300 400 false = drive_payload 255 359 false ∧
    (∀ r g b : Int, set_matrix_led_payload 10 (-1) r g b
        = set_matrix_led_payload 7 0 r g b) := by
  refine ⟨?_, ?_, ?_, ?_, ?_, ?_, by decide, ?_⟩
  · intro v; unfold clamp; split_ifs <;> omega
  · intro v; unfold clamp; split_ifs <;> omega
  · intro v; unfold clamp; split_ifs <;> omega
  · intro sp hd rv; simp [drive_payload, clamp_idem]
  · intro r g b; simp [set_main_led_payload, clamp_idem]
  · intro x y r g b; simp [set_matrix_led_payload, clamp_idem]
  · intro r g b; simp [set_matrix_led_payload]; constructor <;> (unfold clamp; omega)

/-- C5: whenever the session is not exactly connected-and-awake, each of
`drive`, `set_main_led`, `set_matrix_led` returns failure, attempts no
transport write, and leaves every field of the session unchanged. -/
theorem guarded_commands (s : Session) (speed heading red green blue x y : Int)
    (reverse w : Bool)
    (hg : ¬(s.is_connected = true ∧ s.is_awake = true)) :
    drive s speed heading reverse w = (s, false, []) ∧
    set_main_led s red green blue w = (s, false, []) ∧
    set_matrix_led s x y red green blue w = (s, false, []) := by
  have hb : (s.is_connected && s.is_awake) = false := by
    cases hc : s.is_connected <;> cases ha : s.is_awake <;> simp_all
  unfold drive set_main_led set_matrix_led
  rw [hb]
  simp

/-- C5 witness: `drive` on the initial (disconnected, asleep) session. -/
theorem guarded_commands_witness :
    drive initSession 100 90 false true = (initSession, false, []) :=
  (guarded_commands initSession 100 90 0 0 0 0 0 false true (by decide)).1

/-- C6 counterexample: a fully successful `connect` run from the initial
session ends connected-and-awake but performs exactly ONE transport write
(the wake frame), not two as claimed. -/
theorem connect_two_writes_counterexample :
    (connect initSession "AA" ⟨true, true, true, true⟩).1.is_connected = true ∧
    (connect initSession "AA" ⟨true, true, true, true⟩).1.is_awake = true ∧
    (connect initSession "AA" ⟨true, true, true, true⟩).2.2 = [wake_command] ∧
    ¬((connect initSession "AA" ⟨true, true, true, true⟩).2.2.length = 2) := by
  decide

/-- C6 amended: when the transport open and characteristic resolution
succeed and no other command is issued, `connect` from the initial
session returns success, exactly one transport write occurs (the wake
frame, nothing else), the session ends connected, and it is awake exactly
when the wake write succeeded (asleep when it failed). -/
theorem connect_single_write (a : String) (o : ConnectOutcome)
    (h1 : o.openOk = true) (h2 : o.charFound = true) :
    (connect initSession a o).2.2 = [wake_command] ∧
    (connect initSession a o).2.1 = true ∧
    (connect initSession a o).1.is_connected = true ∧
    (connect initSession a o).1.is_awake = o.wakeWriteOk := by
  obtain ⟨o1, o2, o3, o4⟩ := o
  simp only at h1 h2
  subst h1 h2
  cases o4 <;> simp [connect, wake, initSession]

/-- C6 witness: the amended theorem at a concrete outcome where the wake
write fails. -/
theorem connect_single_write_witness :
    (connect initSession "AA" ⟨true, true, true, false⟩).2.2 = [wake_command] ∧
    (connect initSession "AA" ⟨true, true, true, false⟩).2.1 = true ∧
    (connect initSession "AA" ⟨true, true, true, false⟩).1.is_connected = true ∧
    (connect initSession "AA" ⟨true, true, true, false⟩).1.is_awake = false :=
  connect_single_write "AA" ⟨true, true, true, false⟩ rfl rfl

/-- C7 counterexample: from the initial state, a successful connect (the
robot is awake) followed by a second `connect` whose transport open fails
leaves the session with `is_awake = true` but `is_connected = false` —
the exception handler of `connect` clears `is_connected` but forgets
`is_awake`, so AWAKE-implies-CONNECTED does not hold over arbitrary
operation sequences. -/
theorem awake_implies_connected_counterexample :
    (run initSession [Op.connectOp "AA" ⟨true, true, true, true⟩,
                      Op.connectOp "AA" ⟨false, true, true, true⟩]).is_awake = true ∧
    (run initSession [Op.connectOp "AA" ⟨true, true, true, true⟩,
                      Op.connectOp "AA" ⟨false, true, true, true⟩]).is_connected = false := by
  decide

/-- Session states reachable from the initial state by sequences of
`connect`, `disconnect`, `wake` and command operations under arbitrary
transport outcomes, restricted so that `connect` is only invoked while
the session is not awake and `wake` only while it is connected. -/
inductive GuardedReach : Session → Prop where
  | init : GuardedReach initSession
  | conn (s : Session) (a : String) (o : ConnectOutcome) :
      GuardedReach s → s.is_awake = false → GuardedReach (connect s a o).1
  | disc (s : Session) (c : Bool) : GuardedReach s → GuardedReach (disconnect s c).1
  | wk (s : Session) (w : Bool) : GuardedReach s → s.is_connected = true →
      GuardedReach (wake s w).1
  | drv (s : Session) (sp hd : Int) (rv w : Bool) : GuardedReach s →
      GuardedReach (drive s sp hd rv w).1
  | led (s : Session) (r g b : Int) (w : Bool) : GuardedReach s →
      GuardedReach (set_main_led s r g b w).1
  | mat (s : Session) (x y r g b : Int) (w : Bool) : GuardedReach s →
      GuardedReach (set_matrix_led s x y r g b w).1

/-- C7 amended: along every operation sequence from the initial state in
which `connect` is never invoked on an awake session and `wake` never on
a disconnected one (the adversarial transport may still fail anywhere),
the power state is AWAKE only while the connection state is CONNECTED;
and every `disconnect` call that reports success leaves the session
disconnected and asleep. -/
theorem awake_implies_connected :
    (∀ s : Session, GuardedReach s → s.is_awake = true → s.is_connected = true) ∧
    (∀ s : Session, ∀ c : Bool, GuardedReach s → (disconnect s c).2 = true →
      (disconnect s c).1.is_awake = false ∧ (disconnect s c).1.is_connected = false) := by
  have inv : ∀ s : Session, GuardedReach s → s.is_awake = true → s.is_connected = true := by
    intro s hs
    induction hs with
    | init => intro h; simp [initSession] at h
    | conn s a o _ hna ih =>
        obtain ⟨o1, o2, o3, o4⟩ := o
        cases o1 <;> cases o2 <;> cases o3 <;> cases o4 <;>
          simp_all [connect, wake]
    | disc s c _ ih =>
        unfold disconnect
        split
        · exact ih
        · split
          · intro h; simp_all
          · exact ih
    | wk s w _ hc ih =>
        unfold wake
        split
        · split <;> simp_all
        · simp_all
    | drv s sp hd rv w _ ih =>
        rw [(command_state_eq s sp hd 0 0 0 0 0 rv w).1]; exact ih
    | led s r g b w _ ih =>
        rw [(command_state_eq s 0 0 r g b 0 0 false w).2.1]; exact ih
    | mat s x y r g b w _ ih =>
        rw [(command_state_eq s 0 0 r g b x y false w).2.2]; exact ih
  refine ⟨inv, ?_⟩
  intro s c hs hok
  unfold disconnect at hok ⊢
  by_cases hc : s.is_connected = true
  · simp only [hc] at hok ⊢
    by_cases hd : (s.device && c) = true
    · simp [hd]
    · simp [hd] at hok
  · have hc' : s.is_connected = false := by simpa using hc
    simp only [hc'] at hok ⊢
    have ha : s.is_awake = false := by
      cases ha : s.is_awake
      · rfl
      · exact absurd (inv s hs ha) (by simp [hc'])
    simp [ha, hc']

/-- C7 witness: the invariant applied to the concrete guarded-reachable
state after one fully successful `connect`. -/
theorem awake_implies_connected_witness :
    (connect initSession "AA" ⟨true, true, true, true⟩).1.is_connected = true :=
  awake_implies_connected.1 (connect initSession "AA" ⟨true, true, true, true⟩).1
    (GuardedReach.conn initSession "AA" ⟨true, true, true, true⟩ GuardedReach.init rfl)
    (by decide)

/-- C8 counterexample: on a connected-and-awake session, when the
transport close fails, `disconnect` reports failure and leaves the
session still CONNECTED — it does not transition unconditionally. -/
theorem disconnect_unconditional_counterexample :
    (disconnect ⟨true, true, true, true⟩ false).1.is_connected = true ∧
    (disconnect ⟨true, true, true, true⟩ false).1.is_awake = true ∧
    (disconnect ⟨true, true, true, true⟩ false).2 = false := by
  decide

/-- C8 amended: on a connected session (which always holds a transport
handle), `disconnect` is all-or-nothing: when the transport close
succeeds it reports success and clears exactly the `is_connected` and
`is_awake` flags; when the close fails it reports failure and leaves
every field unchanged — never a partial state. -/
theorem disconnect_all_or_nothing (s : Session) (c : Bool)
    (h1 : s.is_connected = true) (h2 : s.device = true) :
    disconnect s c
      = if c then ({ s with is_connected := false, is_awake := false }, true)
        else (s, false) := by
  unfold disconnect
  cases c <;> simp [h1, h2]

/-- C8 witness: the amended theorem at a concrete connected session with
a failing close. -/
theorem disconnect_all_or_nothing_witness :
    disconnect ⟨true, true, true, false⟩ false = (⟨true, true, true, false⟩, false) :=
  disconnect_all_or_nothing ⟨true, true, true, false⟩ false rfl rfl

/-- C9 counterexample: on a connected session whose transport close keeps
failing, two consecutive `disconnect` calls BOTH report failure and the
session stays connected — "twice in a row both report success" does not
hold for every run. -/
theorem disconnect_idempotent_counterexample :
    (disconnect ⟨true, true, true, false⟩ false).2 = false ∧
    (disconnect (disconnect ⟨true, true, true, false⟩ false).1 false).2 = false ∧
    (disconnect (disconnect ⟨true, true, true, false⟩ false).1 false).1.is_connected
      = true := by
  decide

/-- C9 amended: `disconnect` on a session already in the DISCONNECTED
state is a no-op that reports success; and after any `disconnect` call
that reports success the session is disconnected and every immediately
following `disconnect` also reports success and changes nothing. -/
theorem disconnect_idempotent :
    (∀ s : Session, ∀ c : Bool, s.is_connected = false → disconnect s c = (s, true)) ∧
    (∀ s : Session, ∀ c₁ c₂ : Bool, (disconnect s c₁).2 = true →
      (disconnect s c₁).1.is_connected = false ∧
      disconnect (disconnect s c₁).1 c₂ = ((disconnect s c₁).1, true)) := by
  constructor
  · intro s c h; unfold disconnect; simp [h]
  · intro s c₁ c₂ h
    unfold disconnect at h ⊢
    by_cases hc : s.is_connected = true
    · by_cases hd : (s.device && c₁) = true
      · simp [hc, hd]
      · simp [hc, hd] at h
    · have hc' : s.is_connected = false := by simpa using hc
      simp [hc']

/-- C9 witness: the no-op clause at the initial disconnected session. -/
theorem disconnect_idempotent_witness :
    disconnect initSession true = (initSession, true) :=
  disconnect_idempotent.1 initSession true rfl

/-- C10: `connect`'s result depends only on the transport open and the
characteristic resolution: when both succeed it returns success whatever
the wake write does, so it can report success while the session is still
asleep (connected-but-asleep when the wake write fails). -/
theorem connect_success_despite_wake_failure (a : String) (o : ConnectOutcome)
    (h1 : o.openOk = true) (h2 : o.charFound = true) :
    (connect initSession a o).2.1 = true ∧
    (connect initSession a o).1.is_connected = true ∧
    (o.wakeWriteOk = false → (connect initSession a o).1.is_awake = false) := by
  obtain ⟨o1, o2, o3, o4⟩ := o
  simp only at h1 h2
  subst h1 h2
  cases o4 <;> simp [connect, wake, initSession]

/-- C10 witness: success reported while the session stays asleep. -/
theorem connect_success_despite_wake_failure_witness :
    (connect initSession "BB" ⟨true, true, true, false⟩).2.1 = true ∧
    (connect initSession "BB" ⟨true, true, true, false⟩).1.is_connected = true ∧
    (connect initSession "BB" ⟨true, true, true, false⟩).1.is_awake = false :=
  ⟨(connect_success_despite_wake_failure "BB" ⟨true, true, true, false⟩ rfl rfl).1,
   (connect_success_despite_wake_failure "BB" ⟨true, true, true, false⟩ rfl rfl).2.1,
   (connect_success_despite_wake_failure "BB" ⟨true, true, true, false⟩ rfl rfl).2.2 rfl⟩
